import Mathlib

/-!
Verification of `Packages/qtbrowser/Lib/mainMenuWidget.py` (the PCMDI tools
menu dispatcher of the vcdat Qt browser) and `scripts/install_nightly.py`
(the nightly installer), as a shallow embedding in Lean 4.

The dispatcher's observable behaviour is modelled as pure state-passing:
the GUI widget's mutable surroundings (the defined-variable pool, the
session transcript recorded via `self.root.record`, and the two
dispatcher-local attributes `self.pop` and `self.bDialog`) form an explicit
state record, and the external library calls made by a handler are returned
as an explicit list of `ExtCall` values, in the order they are issued.
A Python exception escaping a handler is modelled with `Except`.
-/

namespace CdatSpec

/-- The second argument of `cdutil.times.setTimeBoundsDaily`: absent, a
Python int literal (`2`, `4`, `24`), or the double obtained from the
X-Daily frequency dialog (modelled as a rational). -/
inductive Freq where
  | int (n : Nat)
  | dbl (q : Rat)
deriving DecidableEq, Repr

/-- An external library call issued by a dispatcher handler. -/
inductive ExtCall where
  | setTimeBoundsYearly (v : String)
  | setTimeBoundsMonthly (v : String)
  | setTimeBoundsDaily (v : String) (freq : Option Freq)
  | timesApply (funcnm : String) (v : String)
deriving DecidableEq, Repr

/-- The Python source text of an external call: the called function's
dotted name applied to its arguments.  `fmtG` renders a double the way
Python's `"%g"` format does (kept abstract: floating-point rendering is
not re-implemented here). -/
def renderCall (fmtG : Rat → String) : ExtCall → String
  | .setTimeBoundsYearly v => "cdutil.times.setTimeBoundsYearly(" ++ v ++ ")"
  | .setTimeBoundsMonthly v => "cdutil.times.setTimeBoundsMonthly(" ++ v ++ ")"
  | .setTimeBoundsDaily v Option.none => "cdutil.times.setTimeBoundsDaily(" ++ v ++ ")"
  | .setTimeBoundsDaily v (Option.some (.int n)) =>
      "cdutil.times.setTimeBoundsDaily(" ++ v ++ "," ++ toString n ++ ")"
  | .setTimeBoundsDaily v (Option.some (.dbl q)) =>
      "cdutil.times.setTimeBoundsDaily(" ++ v ++ "," ++ fmtG q ++ ")"
  | .timesApply fn v => fn ++ "(" ++ v ++ ")"

/-- The dispatcher's mutable surroundings: the defined-variable pool
(`self.root.definedVar.widget`, holding variable ids), the session
transcript (`self.root.record` appends to it), and the two attributes the
handlers store widgets into (`self.pop`, holding the key of the stats
descriptor the popup was built from, and `self.bDialog`, holding whether an
input dialog object has been stored). -/
structure MState where
  pool : List String
  transcript : List String
  pop : Option String
  bDialog : Bool
deriving DecidableEq, Repr

/-- `self.root.record(s)`: append one line to the session transcript. -/
def record (st : MState) (s : String) : MState :=
  { st with transcript := st.transcript ++ [s] }

/-- `self.root.definedVar.widget.addVariable(tmp)`: add the derived
variable's id to the pool. -/
def addVariable (st : MState) (vid : String) : MState :=
  { st with pool := st.pool ++ [vid] }

/-- What a handler invocation produced: the updated state, the external
calls issued in order, and how many times the numeric input prompt
(`QInputDialog.getDouble`) was shown. -/
structure HandlerOut where
  st : MState
  calls : List ExtCall
  prompts : Nat
deriving DecidableEq, Repr

/-! ### `QMenuWidget.setBounds` -/

/-- One iteration of the `for v in selectedVars` loop of
`QMenuWidget.setBounds`: the external calls issued for `v` and the
transcript lines recorded for `v`, in order.  `val` is the value obtained
from the X-Daily frequency dialog.  Transcript strings are exactly the
strings the Python source builds (including the `setTimeBoundDaily`
spelling it uses for the record lines of the five daily-style branches). -/
def setBoundsStep (fmtG : Rat → String) (nm : String) (val : Rat) (v : String) :
    List ExtCall × List String :=
  if nm = "Set Bounds For Yearly Data" then
    ([.setTimeBoundsYearly v],
     ["## Set Bounds For Yearly Data",
      "cdutil.times.setTimeBoundsYearly(" ++ v ++ ")"])
  else if nm = "Set Bounds For Monthly Data" then
    ([.setTimeBoundsMonthly v],
     ["## Set Bounds For Monthly Data",
      "cdutil.times.setTimeBoundsMonthly(" ++ v ++ ")"])
  else if nm = "Set Bounds For Daily Data" then
    ([.setTimeBoundsDaily v Option.none],
     ["## Set Bounds For Daily Data",
      "cdutil.times.setTimeBoundDaily(" ++ v ++ ")"])
  else if nm = "Set Bounds For Twice-daily Data" then
    ([.setTimeBoundsDaily v (Option.some (.int 2))],
     ["## Set Bounds For Twice-daily Data",
      "cdutil.times.setTimeBoundDaily(" ++ v ++ ",2)"])
  else if nm = "Set Bounds For 6-Hourly Data" then
    ([.setTimeBoundsDaily v (Option.some (.int 4))],
     ["## Set Bounds For 6-Hourly Data",
      "cdutil.times.setTimeBoundDaily(" ++ v ++ ",4)"])
  else if nm = "Set Bounds For Hourly Data" then
    ([.setTimeBoundsDaily v (Option.some (.int 24))],
     ["## Set Bounds For Hourly Data",
      "cdutil.times.setTimeBoundDaily(" ++ v ++ ",24)"])
  else if nm = "Set Bounds For X-Daily Data" then
    ([.setTimeBoundsDaily v (Option.some (.dbl val))],
     ["## Set Bounds For X-Daily Data",
      "cdutil.times.setTimeBoundDaily(" ++ v ++ "," ++ fmtG val ++ ")"])
  else ([], [])

/-- The `for v in selectedVars` loop of `QMenuWidget.setBounds`: for each
variable, issue the branch's call and record its two lines. -/
def setBoundsLoop (fmtG : Rat → String) (nm : String) (val : Rat) :
    List String → MState → MState × List ExtCall
  | [], st => (st, [])
  | v :: rest, st =>
      let step := setBoundsStep fmtG nm val v
      let st1 := step.2.foldl record st
      let r := setBoundsLoop fmtG nm val rest st1
      (r.1, step.1 ++ r.2)

/-- `QMenuWidget.setBounds(action)`.  `nm` is the action's label text;
`(val, ok)` is what `QInputDialog.getDouble` returns when shown; `vars`
is `getSelectedDefinedVariables()`.  For the X-Daily label the handler
first stores a fresh dialog in `self.bDialog` and prompts once; a
cancelled or non-positive value returns before the loop. -/
def setBounds (fmtG : Rat → String) (nm : String) (val : Rat) (ok : Bool)
    (vars : List String) (st : MState) : HandlerOut :=
  if nm = "Set Bounds For X-Daily Data" then
    let st1 := { st with bDialog := true }
    if ok = false ∨ val ≤ 0 then ⟨st1, [], 1⟩
    else
      let r := setBoundsLoop fmtG nm val vars st1
      ⟨r.1, r.2, 1⟩
  else
    let r := setBoundsLoop fmtG nm val vars st
    ⟨r.1, r.2, 0⟩

/-! ### `QMenuWidget.seasons` -/

/-- Python `str.lower()`: lowercase every character.  (Defined over the
character list so that it evaluates by kernel reduction.) -/
def pyLower (s : String) : String := String.mk (s.data.map Char.toLower)

/-- Worker for Python `str.split()` with no argument: split on runs of
whitespace, producing no empty fields.  `acc` holds the current field,
reversed. -/
def pySplitAux : List Char → List Char → List (List Char)
  | [], acc => if acc.isEmpty then [] else [acc.reverse]
  | c :: cs, acc =>
      if c.isWhitespace then
        if acc.isEmpty then pySplitAux cs [] else acc.reverse :: pySplitAux cs []
      else pySplitAux cs (c :: acc)

/-- Python `str.split()` with no argument. -/
def pySplit (s : String) : List String := (pySplitAux s.data []).map String.mk

/-- Python `"".join(...)`. -/
def pyJoin (l : List String) : String := l.foldl (· ++ ·) ""

/-- The attribute surface of the external `cdutil.times` module as used by
the dispatcher: the season and month aggregation functions reachable from
the menu labels, plus the three named cycles.  `getattr(cdutil.times, nm)`
on any other name raises `AttributeError`.  (In particular no name
containing a space is an attribute of the module.) -/
def cdutilTimesHasAttr (nm : String) : Bool :=
  nm ∈ ["YEAR", "SEASONALCYCLE", "ANNUALCYCLE",
        "DJF", "MAM", "JJA", "SON",
        "JAN", "FEB", "MAR", "APR", "MAY", "JUN",
        "JUL", "AUG", "SEP", "OCT", "NOV", "DEC"]

/-- The `## First which season ?` block of `QMenuWidget.seasons`: the
dotted name of the selected aggregation function, or the `AttributeError`
the `getattr` fallback raises for a name `cdutil.times` lacks. -/
def seasonsResolve (nm : String) : Except String String :=
  if nm = "Annual Means" then .ok "cdutil.times.YEAR"
  else if nm = "Seasonal Means" then .ok "cdutil.times.SEASONALCYCLE"
  else if nm = "Monthly Means" then .ok "cdutil.times.ANNUALCYCLE"
  else if cdutilTimesHasAttr nm then .ok ("cdutil.times." ++ nm)
  else .error ("AttributeError: module cdutil.times has no attribute " ++ nm)

/-- The id `QMenuWidget.seasons` assigns to the derived variable:
`newid = "%s_%s" % (v.id, ext)`, then `newid += menu.lower()` when the
menu is not "Extract". -/
def synthId (menu extStr v : String) : String :=
  let newid0 := v ++ "_" ++ extStr
  if menu ≠ "Extract" then newid0 ++ pyLower menu else newid0

/-- The `for v in selectedVars` loop of `QMenuWidget.seasons`: apply the
selected function to each variable, add the derived variable (with its
synthesized id) to the pool, and record the two transcript lines. -/
def seasonsLoop (menu funcnm recStr extStr : String) :
    List String → MState → MState × List ExtCall
  | [], st => (st, [])
  | v :: rest, st =>
      let newid := synthId menu extStr v
      let st1 := record (record (addVariable st newid) recStr)
        (newid ++ " = " ++ funcnm ++ "(" ++ v ++ ")")
      let r := seasonsLoop menu funcnm recStr extStr rest st1
      (r.1, ExtCall.timesApply funcnm v :: r.2)

/-- `QMenuWidget.seasons(action)`.  `menu` is the parent menu's title
("Extract", "Climatology" or "Departures"), `nm` the action's label text,
`vars` the selected variables.  The result is `Except.error` when the
`getattr` fallback raises. -/
def seasons (menu nm : String) (vars : List String) (st : MState) :
    Except String HandlerOut :=
  match seasonsResolve nm with
  | .error e => .error e
  | .ok fn0 =>
      let funcnm :=
        if menu = "Climatology" then fn0 ++ ".climatology"
        else if menu = "Departures" then fn0 ++ ".departures"
        else fn0
      let recStr :=
        (if menu = "Climatology" then "climatological "
         else if menu = "Departures" then "departures from "
         else "## Computing ") ++ pyLower nm
      let extStr := pyJoin (pySplit (pyLower nm))
      let r := seasonsLoop menu funcnm recStr extStr vars st
      .ok ⟨r.1, r.2, 0⟩

/-! ### `QMenuWidget.stats` -/

/-- The keys of the `self.statsFuncs` dictionary. -/
def statsFuncsKeys : List String :=
  ["Mean", "Variance", "Standard Deviation", "Root Mean Square",
   "Correlation", "Lagged Corelation", "Covariance", "Lagged Covariance",
   "Autocorrelation", "Autocovariance", "Mean Absolute Difference",
   "Linear Regression", "Geometric Mean", "Median", "Rank (in %)"]

/-- `QMenuWidget.stats(action)`: look the label up in `self.statsFuncs`
(a missing key raises `KeyError`), build the configuration popup from the
descriptor and store it in `self.pop`.  The popup itself is out of scope;
the state records which descriptor it was built from. -/
def stats (nm : String) (st : MState) : Except String MState :=
  if nm ∈ statsFuncsKeys then .ok { st with pop := Option.some nm }
  else .error ("KeyError: " ++ nm)

/-! ### `scripts/install_nightly.py` -/

/-- Modelled from the spec: the `SUCCESS` constant of the installer's
`Const` module (which lives outside the checked sources).  The spec's
interface contract — exit code `0` on full success — fixes it to `0`. -/
def SUCCESS : Int := 0

/-- Modelled from the spec: the `FAILURE` constant of the installer's
`Const` module (outside the checked sources); the spec requires a nonzero
exit code on failure at any step. -/
def FAILURE : Int := 1

/-- Outcome of one run of `install_nightly.py`: the process exit code and
which of steps 2 (`nightly_setup.install`) and 3
(`install_packages_for_tests`) were executed. -/
structure InstallRun where
  exitCode : Int
  step2Ran : Bool
  step3Ran : Bool
deriving DecidableEq, Repr

/-- The main sequence of `install_nightly.py`, parametrised by the status
each step would return if executed: `sys.exit(FAILURE)` after a failed
step 1 or step 2, else `sys.exit(status3)`. -/
def installNightly (status1 status2 status3 : Int) : InstallRun :=
  if status1 ≠ SUCCESS then ⟨FAILURE, false, false⟩
  else if status2 ≠ SUCCESS then ⟨FAILURE, true, false⟩
  else ⟨status3, true, true⟩

/-! ### Label tables and spec-side definitions -/

/-- The seven time-bounds action labels added under the "Bounds Set"
menu, in menu order. -/
def sevenBoundsLabels : List String :=
  ["Set Bounds For Yearly Data", "Set Bounds For Monthly Data",
   "Set Bounds For Daily Data", "Set Bounds For Twice-daily Data",
   "Set Bounds For 6-Hourly Data", "Set Bounds For Hourly Data",
   "Set Bounds For X-Daily Data"]

/-- The aggregation labels added to each of the "Extract", "Climatology"
and "Departures" menus. -/
def seasonLabels : List String :=
  ["Annual Means", "Seasonal Means", "DJF", "MAM", "JJA", "SON",
   "Monthly Means",
   "JAN", "FEB", "MAR", "APR", "MAY", "JUN",
   "JUL", "AUG", "SEP", "OCT", "NOV", "DEC"]

/-- Spec-side table, from the spec's words: the external bound-setting
call each of the seven labels must issue for a variable `v`, with `val`
the accepted X-Daily frequency.  Compared against what `setBounds`
actually issues. -/
def specBoundsCall (nm : String) (val : Rat) (v : String) : ExtCall :=
  if nm = "Set Bounds For Yearly Data" then .setTimeBoundsYearly v
  else if nm = "Set Bounds For Monthly Data" then .setTimeBoundsMonthly v
  else if nm = "Set Bounds For Daily Data" then .setTimeBoundsDaily v Option.none
  else if nm = "Set Bounds For Twice-daily Data" then
    .setTimeBoundsDaily v (Option.some (.int 2))
  else if nm = "Set Bounds For 6-Hourly Data" then
    .setTimeBoundsDaily v (Option.some (.int 4))
  else if nm = "Set Bounds For Hourly Data" then
    .setTimeBoundsDaily v (Option.some (.int 24))
  else .setTimeBoundsDaily v (Option.some (.dbl val))

/-- Spec-side form of the identifier suffix: the label lowercased with
all whitespace removed (stated by filtering characters, independently of
the source's split/join idiom). -/
def specLowerNoWhitespace (s : String) : String :=
  String.mk ((pyLower s).data.filter (fun c => !c.isWhitespace))

/-! ### Helper lemmas -/

/-- Folding `record` over a list of lines appends them all. -/
lemma foldl_record (ls : List String) : ∀ st : MState,
    ls.foldl record st = { st with transcript := st.transcript ++ ls } := by
  induction ls with
  | nil => intro st; simp
  | cons l rest ih => intro st; simp [record, ih, List.append_assoc]

/-- Normal form of the `setBounds` loop: the transcript grows by the
per-variable lines in order, and the calls are the per-variable calls in
order; nothing else in the state changes. -/
lemma setBoundsLoop_eq (fmtG : Rat → String) (nm : String) (val : Rat) :
    ∀ (vars : List String) (st : MState),
    setBoundsLoop fmtG nm val vars st =
      ({ st with transcript :=
          st.transcript ++ (vars.map fun v => (setBoundsStep fmtG nm val v).2).flatten },
       (vars.map fun v => (setBoundsStep fmtG nm val v).1).flatten) := by
  intro vars
  induction vars with
  | nil => intro st; simp [setBoundsLoop]
  | cons v rest ih =>
      intro st
      simp only [setBoundsLoop, foldl_record, ih, List.map_cons, List.flatten_cons,
        List.append_assoc]

/-- Normal form of the `seasons` loop: one pool entry and two transcript
lines per variable, and one call per variable, in order. -/
lemma seasonsLoop_eq (menu funcnm recStr extStr : String) :
    ∀ (vars : List String) (st : MState),
    seasonsLoop menu funcnm recStr extStr vars st =
      ({ st with
          pool := st.pool ++ vars.map (synthId menu extStr),
          transcript := st.transcript ++ (vars.map fun v =>
            [recStr, synthId menu extStr v ++ " = " ++ funcnm ++ "(" ++ v ++ ")"]).flatten },
       vars.map fun v => ExtCall.timesApply funcnm v) := by
  intro vars
  induction vars with
  | nil => intro st; simp [seasonsLoop]
  | cons v rest ih =>
      intro st
      simp only [seasonsLoop, record, addVariable, ih, List.map_cons, List.flatten_cons,
        List.append_assoc]
      simp [List.append_assoc]

/-- Joining singleton blocks is mapping. -/
lemma join_map_singleton {α β : Type} (f : α → β) (l : List α) :
    (l.map fun a => [f a]).flatten = l.map f := by
  induction l with
  | nil => simp
  | cons a rest ih => simp [ih]

/-- Joining two-element blocks doubles the length. -/
lemma join_map_pair_length {α β : Type} (f g : α → β) (l : List α) :
    ((l.map fun a => [f a, g a]).flatten).length = 2 * l.length := by
  induction l with
  | nil => simp
  | cons a rest ih => simp [ih]; omega

/-- Joining constantly-empty blocks is empty. -/
lemma flatten_map_nil {α β : Type} (l : List α) :
    (l.map fun _ => ([] : List β)).flatten = [] := by
  induction l with
  | nil => simp
  | cons a rest ih => simp [ih]

/-- `setBounds` only ever appends to the transcript. -/
lemma setBounds_transcript_delta (fmtG : Rat → String) (nm : String) (val : Rat)
    (ok : Bool) (vars : List String) (st : MState) :
    ∃ d, (setBounds fmtG nm val ok vars st).st.transcript = st.transcript ++ d := by
  by_cases hX : nm = "Set Bounds For X-Daily Data"
  · subst hX
    by_cases habort : ok = false ∨ val ≤ 0
    · exact ⟨[], by simp [setBounds, habort]⟩
    · exact ⟨(vars.map fun v =>
          (setBoundsStep fmtG "Set Bounds For X-Daily Data" val v).2).flatten,
        by simp [setBounds, habort, setBoundsLoop_eq]⟩
  · exact ⟨(vars.map fun v => (setBoundsStep fmtG nm val v).2).flatten,
      by simp [setBounds, hX, setBoundsLoop_eq]⟩

/-- `seasons` only ever appends to the transcript when it completes. -/
lemma seasons_transcript_delta (menu nms : String) (vars : List String)
    (st : MState) (out : HandlerOut) (hs : seasons menu nms vars st = .ok out) :
    ∃ d, out.st.transcript = st.transcript ++ d := by
  revert hs
  unfold seasons
  cases hres : seasonsResolve nms with
  | error e => intro hs; exact absurd hs (by simp)
  | ok fn =>
      simp only [seasonsLoop_eq]
      intro hs
      obtain rfl := Except.ok.inj hs
      exact ⟨_, rfl⟩

/-- Every listed aggregation label resolves to a `cdutil.times`
function. -/
lemma seasonsResolve_ok_of_label (nm : String) (hn : nm ∈ seasonLabels) :
    ∃ fn, seasonsResolve nm = .ok fn := by
  unfold seasonLabels at hn
  fin_cases hn <;> exact ⟨_, rfl⟩

/-- On the listed labels, the source's `"".join(nm.lower().split())` idiom
agrees with the spec's "lowercased with all whitespace removed". -/
lemma ext_eq_spec (nm : String) (hn : nm ∈ seasonLabels) :
    pyJoin (pySplit (pyLower nm)) = specLowerNoWhitespace nm := by
  unfold seasonLabels at hn
  fin_cases hn <;> rfl

/-- The synthesized id, written with the suffix as a conditional
appendage. -/
lemma synthId_eq (menu extStr v : String) :
    synthId menu extStr v =
      v ++ "_" ++ extStr ++ (if menu = "Extract" then "" else pyLower menu) := by
  by_cases hE : menu = "Extract" <;> simp [synthId, hE]

/-! ### Claims about the installer -/

/-- Claim C4: if step 1 (`install_miniconda`) returns a status other than
`SUCCESS`, step 2 (`install`) and step 3 (`install_packages_for_tests`)
never execute and the process exits with a nonzero exit code. -/
theorem install_step1_failure_aborts (s1 s2 s3 : Int) (h : s1 ≠ SUCCESS) :
    (installNightly s1 s2 s3).step2Ran = false ∧
    (installNightly s1 s2 s3).step3Ran = false ∧
    (installNightly s1 s2 s3).exitCode ≠ 0 := by
  simp [installNightly, h, FAILURE]

/-- Witness for C4 at `status1 = 1`. -/
theorem install_step1_failure_aborts_witness :
    (installNightly 1 0 0).step2Ran = false ∧
    (installNightly 1 0 0).step3Ran = false ∧
    (installNightly 1 0 0).exitCode ≠ 0 :=
  install_step1_failure_aborts 1 0 0 (by decide)

/-- Claim C5: if steps 1 and 2 both return `SUCCESS`, the process exit
code is exactly the status returned by step 3, success or failure alike
(and step 3 does execute). -/
theorem install_step3_status_propagates (s1 s2 s3 : Int)
    (h1 : s1 = SUCCESS) (h2 : s2 = SUCCESS) :
    (installNightly s1 s2 s3).exitCode = s3 ∧
    (installNightly s1 s2 s3).step3Ran = true := by
  subst h1; subst h2; simp [installNightly]

/-- Witness for C5 with step 3 failing with status `7`. -/
theorem install_step3_status_propagates_witness :
    (installNightly 0 0 7).exitCode = 7 ∧ (installNightly 0 0 7).step3Ran = true :=
  install_step3_status_propagates 0 0 7 (by decide) (by decide)

/-! ### Claims about `setBounds` -/

/-- Claim C2: for the X-Daily label, a cancelled prompt or a non-positive
frequency makes `setBounds` return before the loop: no external call is
issued and no transcript entry is appended, for every selected variable
set. -/
theorem setBounds_xdaily_abort (fmtG : Rat → String) (val : Rat) (ok : Bool)
    (vars : List String) (st : MState) (h : ok = false ∨ val ≤ 0) :
    (setBounds fmtG "Set Bounds For X-Daily Data" val ok vars st).calls = [] ∧
    (setBounds fmtG "Set Bounds For X-Daily Data" val ok vars st).st.transcript =
      st.transcript := by
  simp [setBounds, h]

/-- Witness for C2: a cancelled prompt (`ok = false`) with two selected
variables. -/
theorem setBounds_xdaily_abort_witness :
    (setBounds (fun _ => "") "Set Bounds For X-Daily Data" 5 false ["a", "b"]
        ⟨[], [], Option.none, false⟩).calls = [] ∧
    (setBounds (fun _ => "") "Set Bounds For X-Daily Data" 5 false ["a", "b"]
        ⟨[], [], Option.none, false⟩).st.transcript = ([] : List String) :=
  setBounds_xdaily_abort (fun _ => "") 5 false ["a", "b"]
    ⟨[], [], Option.none, false⟩ (Or.inl rfl)

/-- Claim C10: for the X-Daily label with an accepted positive frequency,
the prompt is shown exactly once per invocation and that single value is
the second argument of the bound-setting call for every selected
variable. -/
theorem setBounds_xdaily_single_prompt (fmtG : Rat → String) (val : Rat)
    (vars : List String) (st : MState) (hval : 0 < val) :
    (setBounds fmtG "Set Bounds For X-Daily Data" val true vars st).prompts = 1 ∧
    (setBounds fmtG "Set Bounds For X-Daily Data" val true vars st).calls =
      vars.map (fun v => ExtCall.setTimeBoundsDaily v (Option.some (.dbl val))) := by
  have hv0 : ¬ val ≤ 0 := not_le.mpr hval
  simp [setBounds, hv0, setBoundsLoop_eq, setBoundsStep, join_map_singleton]

/-- Witness for C10 at frequency `3` with two selected variables. -/
theorem setBounds_xdaily_single_prompt_witness :
    (setBounds (fun _ => "3") "Set Bounds For X-Daily Data" 3 true ["a", "b"]
        ⟨[], [], Option.none, false⟩).prompts = 1 ∧
    (setBounds (fun _ => "3") "Set Bounds For X-Daily Data" 3 true ["a", "b"]
        ⟨[], [], Option.none, false⟩).calls =
      ["a", "b"].map (fun v => ExtCall.setTimeBoundsDaily v (Option.some (.dbl 3))) :=
  setBounds_xdaily_single_prompt (fun _ => "3") 3 ["a", "b"]
    ⟨[], [], Option.none, false⟩ (by norm_num)

/-- Claim C1 as stated is false: with two selected variables and the
Yearly label, four transcript entries are appended (the header comment is
re-recorded for each variable), not `2 + 1 = 3`. -/
theorem setBounds_transcript_count_cex :
    ((setBounds (fun _ => "") "Set Bounds For Yearly Data" 0 true ["a", "b"]
        ⟨[], [], Option.none, false⟩).st.transcript).length ≠ ["a", "b"].length + 1 := by
  decide

/-- Claim C1 (amended): for every one of the seven time-bounds labels and
every selected variable set, `setBounds` issues the spec's bound-setting
call with the correct arguments for each selected variable, in order, and
appends exactly two transcript entries per selected variable — the header
comment is recorded once per variable (inside the loop), not once per
invocation. -/
theorem setBounds_seven_labels (fmtG : Rat → String) (nm : String) (val : Rat)
    (vars : List String) (st : MState)
    (hnm : nm ∈ sevenBoundsLabels) (hval : 0 < val) :
    (setBounds fmtG nm val true vars st).calls = vars.map (specBoundsCall nm val) ∧
    (setBounds fmtG nm val true vars st).st.transcript.length =
      st.transcript.length + 2 * vars.length := by
  have hv0 : ¬ val ≤ 0 := not_le.mpr hval
  fin_cases hnm <;>
    simp [setBounds, hv0, setBoundsLoop_eq, setBoundsStep, specBoundsCall,
      join_map_singleton, Function.comp_def, List.map_const', List.sum_replicate,
      smul_eq_mul] <;>
    omega

/-- Witness for the amended C1 at the Monthly label with one selected
variable. -/
theorem setBounds_seven_labels_witness :
    (setBounds (fun _ => "") "Set Bounds For Monthly Data" 1 true ["a"]
        ⟨[], [], Option.none, false⟩).calls =
      ["a"].map (specBoundsCall "Set Bounds For Monthly Data" 1) ∧
    (setBounds (fun _ => "") "Set Bounds For Monthly Data" 1 true ["a"]
        ⟨[], [], Option.none, false⟩).st.transcript.length =
      ([] : List String).length + 2 * ["a"].length :=
  setBounds_seven_labels (fun _ => "") "Set Bounds For Monthly Data" 1 ["a"]
    ⟨[], [], Option.none, false⟩ (by decide) (by norm_num)

/-! ### Claims about `seasons` and the dispatcher as a whole -/

/-- Claim C3: for every menu in Extract/Climatology/Departures and every
listed aggregation label, `seasons` completes, and the identifier of each
derived result is the variable's id, an underscore, the label lowercased
with all whitespace removed, and the lowercased menu title exactly when
the menu is not "Extract". -/
theorem seasons_synthesized_id (menu nm : String) (vars : List String) (st : MState)
    (_hm : menu ∈ (["Extract", "Climatology", "Departures"] : List String))
    (hn : nm ∈ seasonLabels) :
    ∃ out, seasons menu nm vars st = .ok out ∧
      out.st.pool = st.pool ++ vars.map (fun vid =>
        vid ++ "_" ++ specLowerNoWhitespace nm ++
          (if menu = "Extract" then "" else pyLower menu)) := by
  obtain ⟨fn, hfn⟩ := seasonsResolve_ok_of_label nm hn
  have hext := ext_eq_spec nm hn
  simp only [seasons, hfn]
  refine ⟨_, rfl, ?_⟩
  simp [seasonsLoop_eq, synthId_eq, hext]

/-- Witness for C3: the "Seasonal Means" label under the "Climatology"
menu with one selected variable `tas`. -/
theorem seasons_synthesized_id_witness :
    ∃ out, seasons "Climatology" "Seasonal Means" ["tas"]
        ⟨[], [], Option.none, false⟩ = .ok out ∧
      out.st.pool = ([] : List String) ++ ["tas"].map (fun vid =>
        vid ++ "_" ++ specLowerNoWhitespace "Seasonal Means" ++
          (if ("Climatology" : String) = "Extract" then ""
           else pyLower "Climatology")) :=
  seasons_synthesized_id "Climatology" "Seasonal Means" ["tas"]
    ⟨[], [], Option.none, false⟩ (by decide) (by decide)

/-- Claim C6 as stated is false for `seasons`: on a label matching no
recognized action, the handler does not silently no-op but falls through
to `getattr(cdutil.times, nm)`, which raises `AttributeError`. -/
theorem seasons_unknown_label_cex :
    seasons "Extract" "Not A Real Label" ["v"] ⟨[], [], Option.none, false⟩ =
      .error ("AttributeError: module cdutil.times has no attribute " ++
        "Not A Real Label") := by
  rfl

/-- Claim C6 (amended): on a label matching none of the recognized
actions, `setBounds` silently no-ops — no exception, no external call,
no transcript entry, state untouched — but `seasons` instead raises
`AttributeError` whenever the label is not an attribute of
`cdutil.times`. -/
theorem unknown_label_dispatch (fmtG : Rat → String) (nm menu : String)
    (val : Rat) (ok : Bool) (vars : List String) (st : MState)
    (hb : nm ∉ sevenBoundsLabels)
    (hs : nm ∉ (["Annual Means", "Seasonal Means", "Monthly Means"] : List String))
    (ha : cdutilTimesHasAttr nm = false) :
    setBounds fmtG nm val ok vars st = ⟨st, [], 0⟩ ∧
    seasons menu nm vars st =
      .error ("AttributeError: module cdutil.times has no attribute " ++ nm) := by
  simp only [sevenBoundsLabels, List.mem_cons, List.not_mem_nil, or_false,
    not_or] at hb
  obtain ⟨h1, h2, h3, h4, h5, h6, h7⟩ := hb
  simp only [List.mem_cons, List.not_mem_nil, or_false, not_or] at hs
  obtain ⟨hs1, hs2, hs3⟩ := hs
  constructor
  · simp [setBounds, h7, setBoundsLoop_eq, setBoundsStep,
      h1, h2, h3, h4, h5, h6, flatten_map_nil]
  · simp [seasons, seasonsResolve, hs1, hs2, hs3, ha]

/-- Witness for the amended C6 at the label "Bogus". -/
theorem unknown_label_dispatch_witness :
    setBounds (fun _ => "") "Bogus" 1 true ["v"] ⟨[], [], Option.none, false⟩ =
      ⟨⟨[], [], Option.none, false⟩, [], 0⟩ ∧
    seasons "Extract" "Bogus" ["v"] ⟨[], [], Option.none, false⟩ =
      .error ("AttributeError: module cdutil.times has no attribute " ++ "Bogus") :=
  unknown_label_dispatch (fun _ => "") "Bogus" "Extract" 1 true ["v"]
    ⟨[], [], Option.none, false⟩ (by decide) (by decide) (by decide)

/-- Claim C7 is right and the code is wrong: for the Daily label the
handler calls `cdutil.times.setTimeBoundsDaily(v1)` but records the line
`cdutil.times.setTimeBoundDaily(v1)` (missing the `s` of `Bounds`), so
the transcript entry does not textually match the call made.  The same
slip affects the Twice-daily, 6-Hourly, Hourly and X-Daily record
lines. -/
theorem setBounds_daily_record_mismatch :
    (setBounds (fun _ => "") "Set Bounds For Daily Data" 0 true ["v1"]
        ⟨[], [], Option.none, false⟩).calls =
      [ExtCall.setTimeBoundsDaily "v1" Option.none] ∧
    (setBounds (fun _ => "") "Set Bounds For Daily Data" 0 true ["v1"]
        ⟨[], [], Option.none, false⟩).st.transcript =
      ["## Set Bounds For Daily Data", "cdutil.times.setTimeBoundDaily(v1)"] ∧
    renderCall (fun _ => "") (ExtCall.setTimeBoundsDaily "v1" Option.none) =
      "cdutil.times.setTimeBoundsDaily(v1)" ∧
    ("cdutil.times.setTimeBoundDaily(v1)" : String) ≠
      "cdutil.times.setTimeBoundsDaily(v1)" := by
  exact ⟨rfl, rfl, rfl, by decide⟩

/-- Claim C8: the session transcript is append-only under the dispatcher:
after any `setBounds` invocation, and after any completing `seasons`
invocation, the prior transcript is a prefix of the new one. -/
theorem transcript_append_only (fmtG : Rat → String) (nmb menu nms : String)
    (val : Rat) (ok : Bool) (vars : List String) (st : MState)
    (out : HandlerOut) (hs : seasons menu nms vars st = .ok out) :
    st.transcript <+: (setBounds fmtG nmb val ok vars st).st.transcript ∧
    st.transcript <+: out.st.transcript := by
  constructor
  · obtain ⟨d, hd⟩ := setBounds_transcript_delta fmtG nmb val ok vars st
    rw [hd]
    exact List.prefix_append _ _
  · obtain ⟨d, hd⟩ := seasons_transcript_delta menu nms vars st out hs
    rw [hd]
    exact List.prefix_append _ _

/-- Witness for C8: a Yearly `setBounds` invocation and a completed
"Extract"/"DJF" `seasons` invocation from the empty state. -/
theorem transcript_append_only_witness :
    ([] : List String) <+:
      (setBounds (fun _ => "") "Set Bounds For Yearly Data" 0 true ["v"]
        ⟨[], [], Option.none, false⟩).st.transcript ∧
    ([] : List String) <+:
      (HandlerOut.mk
        ⟨["v_djf"], ["## Computing djf", "v_djf = cdutil.times.DJF(v)"],
          Option.none, false⟩
        [ExtCall.timesApply "cdutil.times.DJF" "v"] 0).st.transcript :=
  transcript_append_only (fun _ => "") "Set Bounds For Yearly Data" "Extract"
    "DJF" 0 true ["v"] ⟨[], [], Option.none, false⟩
    (HandlerOut.mk
      ⟨["v_djf"], ["## Computing djf", "v_djf = cdutil.times.DJF(v)"],
        Option.none, false⟩
      [ExtCall.timesApply "cdutil.times.DJF" "v"] 0)
    (by rfl)

/-- Claim C9 as stated is false: the `stats` handler does change the
dispatcher's own state — it stores the configuration popup in
`self.pop`. -/
theorem stats_pop_changed_cex :
    stats "Mean" ⟨[], [], Option.none, false⟩ =
      .ok ⟨[], [], Option.some "Mean", false⟩ ∧
    (⟨[], [], Option.some "Mean", false⟩ : MState).pop ≠
      (⟨[], [], Option.none, false⟩ : MState).pop := by
  exact ⟨rfl, by decide⟩

/-- Claim C9 (amended): handler invocations are independent of the
dispatcher-local state: `setBounds` and `seasons` read neither `self.pop`
nor `self.bDialog`, so their calls, transcript entries and pool changes
are the same from any values of those fields; the only dispatcher-state
writes are `setBounds` storing the X-Daily input dialog in `self.bDialog`
and `stats` storing the popup in `self.pop` (`stats` touches neither the
pool nor the transcript). -/
theorem handlers_dispatcher_state_indep (fmtG : Rat → String)
    (nm nms menu nm2 : String) (val : Rat) (ok : Bool)
    (vars vars2 : List String) (st : MState) (p : Option String) (b : Bool)
    (st' : MState) (hst : stats nms st = .ok st') :
    setBounds fmtG nm val ok vars { st with pop := p, bDialog := b } =
      ⟨{ (setBounds fmtG nm val ok vars st).st with
          pop := p,
          bDialog := if nm = "Set Bounds For X-Daily Data" then true else b },
        (setBounds fmtG nm val ok vars st).calls,
        (setBounds fmtG nm val ok vars st).prompts⟩ ∧
    seasons menu nm2 vars2 { st with pop := p, bDialog := b } =
      (seasons menu nm2 vars2 st).map
        (fun o => ⟨{ o.st with pop := p, bDialog := b }, o.calls, o.prompts⟩) ∧
    (st'.pool = st.pool ∧ st'.transcript = st.transcript ∧
      st'.bDialog = st.bDialog) := by
  refine ⟨?_, ?_, ?_⟩
  · by_cases hX : nm = "Set Bounds For X-Daily Data"
    · subst hX
      by_cases habort : ok = false ∨ val ≤ 0 <;>
        simp [setBounds, habort, setBoundsLoop_eq]
    · simp [setBounds, hX, setBoundsLoop_eq]
  · unfold seasons
    cases seasonsResolve nm2 with
    | error e => simp [Except.map]
    | ok fn => simp [seasonsLoop_eq, Except.map]
  · revert hst
    unfold stats
    by_cases hk : nms ∈ statsFuncsKeys
    · intro hst
      simp only [hk, if_pos, Except.ok.injEq] at hst
      subst hst
      exact ⟨rfl, rfl, rfl⟩
    · intro hst
      simp [hk] at hst

/-- Witness for the amended C9: Yearly `setBounds`, "Extract"/"DJF"
`seasons` and the "Mean" stats descriptor from the empty state, with
`pop` and `bDialog` perturbed. -/
theorem handlers_dispatcher_state_indep_witness :
    setBounds (fun _ => "") "Set Bounds For Yearly Data" 1 true ["v"]
        ⟨[], [], Option.some "x", true⟩ =
      ⟨{ (setBounds (fun _ => "") "Set Bounds For Yearly Data" 1 true ["v"]
            ⟨[], [], Option.none, false⟩).st with
          pop := Option.some "x",
          bDialog := if ("Set Bounds For Yearly Data" : String) =
              "Set Bounds For X-Daily Data" then true else true },
        (setBounds (fun _ => "") "Set Bounds For Yearly Data" 1 true ["v"]
          ⟨[], [], Option.none, false⟩).calls,
        (setBounds (fun _ => "") "Set Bounds For Yearly Data" 1 true ["v"]
          ⟨[], [], Option.none, false⟩).prompts⟩ ∧
    seasons "Extract" "DJF" ["v"] ⟨[], [], Option.some "x", true⟩ =
      (seasons "Extract" "DJF" ["v"] ⟨[], [], Option.none, false⟩).map
        (fun o => ⟨{ o.st with pop := Option.some "x", bDialog := true },
          o.calls, o.prompts⟩) ∧
    ((⟨[], [], Option.some "Mean", false⟩ : MState).pool =
        (⟨[], [], Option.none, false⟩ : MState).pool ∧
      (⟨[], [], Option.some "Mean", false⟩ : MState).transcript =
        (⟨[], [], Option.none, false⟩ : MState).transcript ∧
      (⟨[], [], Option.some "Mean", false⟩ : MState).bDialog =
        (⟨[], [], Option.none, false⟩ : MState).bDialog) :=
  handlers_dispatcher_state_indep (fun _ => "") "Set Bounds For Yearly Data"
    "Mean" "Extract" "DJF" 1 true ["v"] ["v"] ⟨[], [], Option.none, false⟩
    (Option.some "x") true ⟨[], [], Option.some "Mean", false⟩ (by rfl)

end CdatSpec
